import Mathlib

/-!
Verification of the frame-compositing and encoder-stability control core of
the daydream-examples repository, shallowly embedded in Lean 4.

The embedding covers:
* the stream orchestrator's per-tick compositing (crossfade, blit geometry,
  alpha save/restore) from
  with-camera-input/src/components/CameraInput/utils/streamOrchestrator.ts;
* the background/foreground pump scheduler of the same file;
* the stream complexity manager (analysis metrics, injection gating,
  monitoring lifecycle) from streamComplexityManager.ts;
* the stream stabilizer (synchronous validation checks, event-driven
  validation loop, abort handling) from streamStabilizer.ts;
* the useStreamStabilizer hook's stream-ready callback policy.

JavaScript numbers are modelled as exact rationals (reals where the source
uses Math.sqrt); timers are modelled by explicit timer-world state; event
loops are modelled by explicit event lists.
-/

/-! ## Stream orchestrator: sources and readiness -/

/-- The `kind` tag of a `StreamSource` descriptor (`canvas` or `video`). -/
inductive SourceKind
  | canvas
  | video
deriving DecidableEq

/-- A `StreamSource` descriptor together with the observable state of its
underlying element: `readyState` (video only), and the intrinsic
dimensions (`videoWidth`/`videoHeight` for video, `width`/`height` for
canvas).  `sourceId` identifies the element handle. -/
structure StreamSource where
  kind : SourceKind
  sourceId : Nat
  readyState : Nat
  srcW : ℚ
  srcH : ℚ
deriving DecidableEq

/-- `isSourceReady` from streamOrchestrator.ts: video sources need
`readyState >= 2` and non-zero intrinsic dimensions; canvas sources need
non-zero width and height. -/
def isSourceReady (s : StreamSource) : Bool :=
  match s.kind with
  | SourceKind.video =>
      decide (2 ≤ s.readyState) && decide (0 < s.srcW) && decide (0 < s.srcH)
  | SourceKind.canvas =>
      decide (0 < s.srcW) && decide (0 < s.srcH)

/-! ## Blit geometry (`blitSource`) -/

/-- The destination rectangle computed by `blitSource`. -/
structure BlitRect where
  dx : ℤ
  dy : ℤ
  dw : ℤ
  dh : ℤ
deriving DecidableEq

/-- The destination-rectangle computation of `blitSource`:
`scale = min(w/sw, h/sh)`, `dw = floor(sw*scale)`, `dh = floor(sh*scale)`,
`dx = floor((w-dw)/2)`, `dy = floor((h-dh)/2)`. -/
def blitRect (w h sw sh : ℚ) : BlitRect :=
  let scale := min (w / sw) (h / sh)
  let dw := ⌊sw * scale⌋
  let dh := ⌊sh * scale⌋
  let dx := ⌊(w - (dw : ℚ)) / 2⌋
  let dy := ⌊(h - (dh : ℚ)) / 2⌋
  ⟨dx, dy, dw, dh⟩

/-- The 2D context state relevant to `blitSource`: its `globalAlpha`. -/
structure CtxState where
  globalAlpha : ℚ
deriving DecidableEq

/-- One successful `drawImage` call: which source was drawn, into which
rectangle, with which effective `globalAlpha`. -/
structure DrawCall where
  sourceId : Nat
  rect : BlitRect
  alpha : ℚ
deriving DecidableEq

/-- `blitSource(source, alpha)` from streamOrchestrator.ts.  Returns the
context state after the call and the draw calls that reached the surface.
`drawThrows` models `ctx.drawImage` raising (the `catch (_) {}` branch);
the `finally` block restores the saved `globalAlpha` either way.  A source
with a zero dimension returns before touching the context. -/
def blitSource (ctx : CtxState) (w h : ℚ) (s : StreamSource) (alpha : ℚ)
    (drawThrows : Bool) : CtxState × List DrawCall :=
  if s.srcW = 0 ∨ s.srcH = 0 then (ctx, [])
  else
    let rect := blitRect w h s.srcW s.srcH
    let prevAlpha := ctx.globalAlpha
    let ctx1 : CtxState := { globalAlpha := max 0 (min 1 alpha) }
    let draws := if drawThrows then [] else [⟨s.sourceId, rect, ctx1.globalAlpha⟩]
    ({ ctx1 with globalAlpha := prevAlpha }, draws)

/-! ## Per-tick compositing (`draw` inside `start()`) -/

/-- The orchestrator fields driving the per-tick compositing logic.
`crossfadeDurationMs` is initialized to 200 and never reassigned in the
source. -/
structure OrchestratorState where
  currentSource : Option StreamSource
  pendingSource : Option StreamSource
  crossfadeStartMs : Option ℚ
  crossfadeDurationMs : ℚ
deriving DecidableEq

/-- The first step of the tick: if a pending source has become ready and no
crossfade start time is recorded, record `now` as the start time. -/
def startCrossfadeIfReady (st : OrchestratorState) (now : ℚ) : OrchestratorState :=
  match st.pendingSource with
  | some p =>
      if isSourceReady p then
        match st.crossfadeStartMs with
        | none => { st with crossfadeStartMs := some now }
        | some _ => st
      else st
  | none => st

/-- One invocation of the `draw` closure in `start()`, at monotonic time
`now`.  Returns the updated state and the list of `blitSource` requests
issued, in order, as `(source, alpha)` pairs.  (The initial clear-to-black
and the 1-pixel keepalive fill are `fillRect`s, not source blits, and are
not part of the request list.) -/
def tick (st : OrchestratorState) (now : ℚ) :
    OrchestratorState × List (StreamSource × ℚ) :=
  let st1 := startCrossfadeIfReady st now
  match st1.pendingSource, st1.crossfadeStartMs, st1.currentSource with
  | some p, some start, some c =>
      let t := min 1 ((now - start) / st1.crossfadeDurationMs)
      if 1 ≤ t then
        ({ st1 with
            currentSource := some p
            pendingSource := none
            crossfadeStartMs := none },
         [(c, 1 - t), (p, t)])
      else (st1, [(c, 1 - t), (p, t)])
  | some _, none, some c => (st1, [(c, 1)])
  | some q, _, none =>
      if isSourceReady q then
        ({ st1 with
            currentSource := some q
            pendingSource := none
            crossfadeStartMs := none },
         [(q, 1)])
      else (st1, [])
  | none, _, some c => (st1, [(c, 1)])
  | none, _, none => (st1, [])

/-! ## Background/foreground pump scheduler -/

/-- The orchestrator fields driving pump scheduling.  `animationId` is true
while a `requestAnimationFrame` handle is registered; `backgroundTimer` is
true while the `setInterval` background timer is registered;
`canvasPresent` stands for `outputCanvas`/`outputCtx` being non-null;
`hasBackgroundOptions` for `backgroundOptions` being non-null;
`monitoring` for the complexity manager's analysis timer being active. -/
structure SchedulerState where
  animationId : Bool
  backgroundTimer : Bool
  canvasPresent : Bool
  hasBackgroundOptions : Bool
  enableComplexityManagement : Bool
  monitoring : Bool
deriving DecidableEq

/-- `start()`: a no-op when an animation handle is already registered or no
canvas/context exists; otherwise registers the per-frame pump. -/
def startPump (st : SchedulerState) : SchedulerState :=
  if st.animationId || !st.canvasPresent then st
  else { st with animationId := true }

/-- `startBackgroundStreaming()`: guarded on canvas, options and the timer
not already running; starts complexity monitoring when configured, then
registers the fixed-period interval timer. -/
def startBackgroundStreaming (st : SchedulerState) : SchedulerState :=
  if !st.canvasPresent || !st.hasBackgroundOptions || st.backgroundTimer then st
  else
    let st1 := if st.enableComplexityManagement then { st with monitoring := true } else st
    { st1 with backgroundTimer := true }

/-- `stopBackgroundStreaming()`: clears the interval timer if registered,
and stops complexity monitoring when the options enable it. -/
def stopBackgroundStreaming (st : SchedulerState) : SchedulerState :=
  let st1 := { st with backgroundTimer := false }
  if st1.hasBackgroundOptions && st1.enableComplexityManagement then
    { st1 with monitoring := false }
  else st1

/-- `stop()`: cancels the animation handle and stops background streaming. -/
def stopPump (st : SchedulerState) : SchedulerState :=
  stopBackgroundStreaming { st with animationId := false }

/-- The `visibilitychange` handler installed by `updateBackgroundStreaming`:
on hidden, start background streaming; on visible, stop it and call
`start()` (plus video-resume and frame kicks, which do not touch the pump
flags). A missing options object makes the handler return immediately. -/
def onVisibilityChange (st : SchedulerState) (hidden : Bool) : SchedulerState :=
  if !st.hasBackgroundOptions then st
  else if hidden then startBackgroundStreaming st
  else startPump (stopBackgroundStreaming st)

/-- The externally driven scheduler events: a `setSource` call (which starts
the pump when it is not running), a visibility change, and a `stop()`
call. -/
inductive SchedulerEvent
  | setSourceCall
  | visibilityChange (hidden : Bool)
  | stopCall
deriving DecidableEq

/-- One scheduler event applied to the scheduler state. -/
def schedulerStep (st : SchedulerState) : SchedulerEvent → SchedulerState
  | SchedulerEvent.setSourceCall => if st.animationId then st else startPump st
  | SchedulerEvent.visibilityChange hidden => onVisibilityChange st hidden
  | SchedulerEvent.stopCall => stopPump st

/-- The scheduler state right after `ensureInitialized` ran on a visible
page: canvas created, default background options installed (with
`enableComplexityManagement: true`), no pump running yet. -/
def initSchedulerState : SchedulerState :=
  { animationId := false
    backgroundTimer := false
    canvasPresent := true
    hasBackgroundOptions := true
    enableComplexityManagement := true
    monitoring := false }

/-! ## Stream complexity manager: analysis metrics -/

/-- An `ImageData` sample: dimensions and the flat RGBA channel array
(4 entries per pixel).  Channels are modelled as reals because the
downstream arithmetic uses `Math.sqrt`. -/
structure ImageData where
  width : Nat
  height : Nat
  data : List ℝ
deriving Inhabited

/-- The grayscale value used throughout the manager:
`(data[i] + data[i+1] + data[i+2]) / 3` (out-of-range reads give 0). -/
noncomputable def pixelGray (d : List ℝ) (i : Nat) : ℝ :=
  (d.getD i 0 + d.getD (i + 1) 0 + d.getD (i + 2) 0) / 3

/-- `calculateSpatialComplexity`: mean gradient magnitude over the interior
pixels (x in [1, width-2], y in [1, height-2]), where the gradient at a
pixel is `sqrt(|right-center|^2 + |bottom-center|^2)` of grayscale values;
normalized by 255.  `pixelCount` is the number of loop iterations; when it
is zero the function returns 0. -/
noncomputable def calculateSpatialComplexity (img : ImageData) : ℝ :=
  let d := img.data
  let w := img.width
  let h := img.height
  let edgeSum : ℝ :=
    ∑ y ∈ Finset.Ico 1 (h - 1), ∑ x ∈ Finset.Ico 1 (w - 1),
      Real.sqrt
        (|pixelGray d ((y * w + x) * 4 + 4) - pixelGray d ((y * w + x) * 4)| ^ 2 +
         |pixelGray d ((y * w + x) * 4 + w * 4) - pixelGray d ((y * w + x) * 4)| ^ 2)
  let pixelCount := (h - 2) * (w - 2)
  if 0 < pixelCount then edgeSum / pixelCount / 255 else 0

/-- `calculateTemporalComplexity`: 0 when there is no previous sample or its
dimensions differ from the current sample; otherwise the sum over pixels of
the absolute grayscale difference, divided by the pixel count
(`data.length / 4`) and by 255.  The loop visits indices `0, 4, 8, ...`
below `data.length`, i.e. `(data.length + 3) / 4` iterations. -/
noncomputable def calculateTemporalComplexity (prev : Option ImageData) (img : ImageData) : ℝ :=
  match prev with
  | none => 0
  | some pd =>
      if pd.width = img.width ∧ pd.height = img.height then
        let diffSum : ℝ :=
          ∑ k ∈ Finset.range ((img.data.length + 3) / 4),
            |pixelGray img.data (4 * k) - pixelGray pd.data (4 * k)|
        diffSum / ((img.data.length : ℝ) / 4) / 255
      else 0

/-- `calculateFrameVariance`: population variance of grayscale values,
normalized by 255². -/
noncomputable def calculateFrameVariance (img : ImageData) : ℝ :=
  let pixelCount : ℝ := (img.data.length : ℝ) / 4
  let graySum : ℝ :=
    ∑ k ∈ Finset.range ((img.data.length + 3) / 4), pixelGray img.data (4 * k)
  let graySumSquares : ℝ :=
    ∑ k ∈ Finset.range ((img.data.length + 3) / 4), pixelGray img.data (4 * k) ^ 2
  let mean := graySum / pixelCount
  (graySumSquares / pixelCount - mean * mean) / (255 * 255)

/-- The `ComplexityMetrics` record returned by `analyzeFrameComplexity`. -/
structure ComplexityMetrics where
  spatialComplexity : ℝ
  temporalComplexity : ℝ
  overallComplexity : ℝ
  frameVariance : ℝ
  isLowComplexity : Prop

/-- The manager's bounded history size (30 samples). -/
def maxHistorySize : Nat := 30

/-- The mutable fields of `StreamComplexityManager`. -/
structure ComplexityState where
  previousFrameData : Option ImageData
  complexityHistory : List ℝ
  isAnalyzing : Bool
  analysisInterval : Option Nat

/-- `analyzeFrameComplexity(canvas)` applied to the downsampled `ImageData`
read from the canvas: computes the four metrics, pushes the overall value
onto the bounded history, and stores the sample as the new previous frame.
`isLowComplexity` is `overall < 0.2` with the threshold fixed in source. -/
noncomputable def analyzeFrameComplexity (st : ComplexityState) (img : ImageData) :
    ComplexityState × ComplexityMetrics :=
  let spatial := calculateSpatialComplexity img
  let temporal := calculateTemporalComplexity st.previousFrameData img
  let variance := calculateFrameVariance img
  let overall := (spatial + temporal) / 2
  let h1 := st.complexityHistory ++ [overall]
  let h2 := if maxHistorySize < h1.length then h1.tail else h1
  ({ st with previousFrameData := some img, complexityHistory := h2 },
   { spatialComplexity := spatial
     temporalComplexity := temporal
     overallComplexity := overall
     frameVariance := variance
     isLowComplexity := overall < 1/5 })

/-! ## Stream complexity manager: injection -/

/-- The `complexityType` option. -/
inductive ComplexityType
  | noise
  | movement
  | dithering
  | adaptive
deriving DecidableEq

/-- `ComplexityInjectionOptions` as destructured by `injectComplexity`, with
that function's defaults.  `minComplexityThreshold` is part of the options
interface (the orchestrator passes 0.15) but `injectComplexity` never
reads it. -/
structure ComplexityInjectionOptions where
  targetComplexity : ℝ := 3/10
  complexityType : ComplexityType := ComplexityType.adaptive
  minComplexityThreshold : ℝ := 15/100
  maxIntensity : ℝ := 15/100

open Classical in
/-- `injectComplexity(canvas, options)`: analyzes the current frame, and
when the metrics report low complexity computes
`intensity = min((target - overall) * 2, maxIntensity)` and applies an
injection of that intensity whenever it exceeds 0.01.  The second component
is `some intensity` when `applyComplexityInjection` ran and `none` when the
surface was left unmodified. -/
noncomputable def injectComplexity (st : ComplexityState) (img : ImageData)
    (opts : ComplexityInjectionOptions) : ComplexityState × Option ℝ :=
  let r := analyzeFrameComplexity st img
  if r.2.isLowComplexity then
    let injectionIntensity :=
      min ((opts.targetComplexity - r.2.overallComplexity) * 2) opts.maxIntensity
    if 1/100 < injectionIntensity then (r.1, some injectionIntensity)
    else (r.1, none)
  else (r.1, none)

/-! ## Stream complexity manager: monitoring lifecycle -/

/-- The host's interval-timer state: a fresh-id counter and the set of
currently registered timers.  Browsers hand out positive timer ids, so the
counter starts at 1 in the scenarios below. -/
structure TimerWorld where
  nextId : Nat
  active : List Nat
deriving DecidableEq

/-- `setInterval`: registers a new timer and returns its id. -/
def setIntervalTimer (w : TimerWorld) : TimerWorld × Nat :=
  ({ nextId := w.nextId + 1, active := w.nextId :: w.active }, w.nextId)

/-- `clearInterval`: deregisters a timer id. -/
def clearIntervalTimer (w : TimerWorld) (id : Nat) : TimerWorld :=
  { w with active := w.active.erase id }

/-- `startMonitoring(canvas, options)`: a no-op while `isAnalyzing`;
otherwise marks the manager analyzing and registers the periodic analysis
timer. -/
def startMonitoring (w : TimerWorld) (st : ComplexityState) :
    TimerWorld × ComplexityState :=
  if st.isAnalyzing then (w, st)
  else
    let p := setIntervalTimer w
    (p.1, { st with isAnalyzing := true, analysisInterval := some p.2 })

/-- `stopMonitoring()`: clears `isAnalyzing`, and cancels the analysis
timer when one is registered. -/
def stopMonitoring (w : TimerWorld) (st : ComplexityState) :
    TimerWorld × ComplexityState :=
  let st1 := { st with isAnalyzing := false }
  match st1.analysisInterval with
  | some id => (clearIntervalTimer w id, { st1 with analysisInterval := none })
  | none => (w, st1)

/-! ## Stream stabilizer -/

/-- `MediaStreamTrack.readyState`. -/
inductive TrackReadyState
  | live
  | ended
deriving DecidableEq

/-- The string the browser exposes for a track `readyState`. -/
def trackReadyStateText : TrackReadyState → String
  | TrackReadyState.live => "live"
  | TrackReadyState.ended => "ended"

/-- A video track as observed by `performValidation`. -/
structure MediaStreamTrackModel where
  readyState : TrackReadyState
deriving DecidableEq

/-- A `MediaStream` as observed by `performValidation`: active flag, video
tracks, and the number of audio tracks. -/
structure MediaStreamModel where
  active : Bool
  videoTracks : List MediaStreamTrackModel
  audioTracks : Nat
deriving DecidableEq

/-- The `StreamStabilizationResult` record. -/
structure ValidationResult where
  isStable : Bool
  frameCount : Nat
  timeElapsed : ℚ
  error : Option String
deriving DecidableEq

/-- The synchronous prefix of `performValidation`, in source order: inactive
stream, then no video tracks, then (`validateAudio` and no audio tracks),
then first video track not live.  Returns `some result` when the function
returns before creating the playback video element and its timeout, `none`
when it proceeds to the asynchronous phase. -/
def syncCheck (stream : MediaStreamModel) (validateAudio : Bool) :
    Option ValidationResult :=
  if stream.active = false then
    some { isStable := false, frameCount := 0, timeElapsed := 0,
           error := some "Stream is not active" }
  else
    match stream.videoTracks with
    | [] =>
        some { isStable := false, frameCount := 0, timeElapsed := 0,
               error := some "No video tracks found" }
    | v :: _ =>
        if validateAudio && stream.audioTracks == 0 then
          some { isStable := false, frameCount := 0, timeElapsed := 0,
                 error := some "No audio tracks found" }
        else if v.readyState ≠ TrackReadyState.live then
          some { isStable := false, frameCount := 0, timeElapsed := 0,
                 error := some ("Video track not live: " ++ trackReadyStateText v.readyState) }
        else none

/-- The asynchronous events the validation promise can observe, each stamped
with the elapsed time `Date.now() - startTime` at which it fires:
a `timeupdate` on the hidden playback video (carrying `video.currentTime`),
the validation timeout, or the `video.play()` rejection. -/
inductive ValidationEvent
  | timeupdate (currentTime : ℚ) (elapsed : ℚ)
  | timeoutFired (elapsed : ℚ)
  | playFailed (elapsed : ℚ)
deriving DecidableEq

/-- Whether the abort signal is set at elapsed time `e`, given the time (if
any) at which the validation's `AbortController` was aborted. -/
def abortedAt (abortAt : Option ℚ) (e : ℚ) : Bool :=
  match abortAt with
  | some a => decide (a ≤ e)
  | none => false

/-- The event-driven phase of `performValidation`: the `timeupdate` handler
first checks the abort signal, then counts a frame whenever `currentTime`
differs from the last seen value, resolving stable once `minStableFrames`
frames are counted; the timeout resolves "Validation timeout" and a play
failure resolves "Failed to play video for validation".  `none` means no
event resolved the promise (it is still pending).  `fc` and `lt` are the
running `frameCount` and `lastFrameTime` (initially 0). -/
def runEvents (minStableFrames : Nat) (abortAt : Option ℚ) :
    Nat → ℚ → List ValidationEvent → Option ValidationResult
  | _, _, [] => none
  | fc, _, ValidationEvent.timeoutFired e :: _ =>
      some { isStable := false, frameCount := fc, timeElapsed := e,
             error := some "Validation timeout" }
  | _, _, ValidationEvent.playFailed e :: _ =>
      some { isStable := false, frameCount := 0, timeElapsed := e,
             error := some "Failed to play video for validation" }
  | fc, lt, ValidationEvent.timeupdate ct e :: rest =>
      if abortedAt abortAt e then
        some { isStable := false, frameCount := fc, timeElapsed := e,
               error := some "Validation aborted" }
      else if ct ≠ lt then
        if minStableFrames ≤ fc + 1 then
          some { isStable := true, frameCount := fc + 1, timeElapsed := e,
                 error := none }
        else runEvents minStableFrames abortAt (fc + 1) ct rest
      else runEvents minStableFrames abortAt fc lt rest

/-- `performValidation(stream, minStableFrames, timeoutMs, validateAudio,
signal)`: the synchronous checks, then the event-driven phase against the
given schedule of events. -/
def performValidation (stream : MediaStreamModel) (minStableFrames : Nat)
    (validateAudio : Bool) (abortAt : Option ℚ)
    (events : List ValidationEvent) : Option ValidationResult :=
  match syncCheck stream validateAudio with
  | some r => some r
  | none => runEvents minStableFrames abortAt 0 0 events

/-- Two `validateStreamStability` calls on the same stream (same
`stream.id`), the second issued at elapsed time `secondCallAt` while the
first is still registered in `pendingValidations`: the second call aborts
the first call's `AbortController` (so the first call's signal is set from
`secondCallAt` on) and installs its own, never-aborted controller.
`events1`/`events2` are the event schedules the two validation promises
observe. -/
def validateTwice (stream : MediaStreamModel) (minStableFrames : Nat)
    (validateAudio : Bool) (secondCallAt : ℚ)
    (events1 events2 : List ValidationEvent) :
    Option ValidationResult × Option ValidationResult :=
  (performValidation stream minStableFrames validateAudio (some secondCallAt) events1,
   performValidation stream minStableFrames validateAudio none events2)

/-! ## useStreamStabilizer: stream-ready callback policy -/

/-- When the `onStreamReady` callback fires relative to the end of
validation inside `createStream`. -/
inductive CallbackTiming
  | immediate
  | delayed (ms : Nat)
  | never
deriving DecidableEq

/-- `createStream` from useStreamStabilizer: returns `(created, timing)`.
No canvas or an already-created stream returns null without any callback.
Otherwise, after validation: a stable result fires the callback
immediately; an unstable result schedules a single `setTimeout` of 1000ms
whose handler fires the callback only if `streamRef.current` is still set
and the stream is active at that moment (`streamActiveAtTimer`).  There is
no second validation and no further retry in the source. -/
def createStream (canvasPresent alreadyCreated hasCallback validationStable
    streamActiveAtTimer : Bool) : Bool × CallbackTiming :=
  if !canvasPresent || alreadyCreated then (false, CallbackTiming.never)
  else if hasCallback && validationStable then (true, CallbackTiming.immediate)
  else if hasCallback && !validationStable then
    (true, if streamActiveAtTimer then CallbackTiming.delayed 1000
           else CallbackTiming.never)
  else (true, CallbackTiming.never)

/-! ## Theorems -/

/-- In one dimension: with a nonnegative uniform scale bounded by `w / sw`,
the floored scaled extent and the floored centering offset stay inside
`[0, w]`. -/
theorem floor_scale_dim_bounds (w sw scale : ℚ) (hsw : 0 < sw)
    (h0 : 0 ≤ scale) (hle : scale ≤ w / sw) :
    0 ≤ ⌊sw * scale⌋ ∧ ((⌊sw * scale⌋ : ℚ)) ≤ w ∧
    0 ≤ ⌊(w - ((⌊sw * scale⌋ : ℤ) : ℚ)) / 2⌋ ∧
    ((⌊(w - ((⌊sw * scale⌋ : ℤ) : ℚ)) / 2⌋ : ℚ)) + ((⌊sw * scale⌋ : ℤ) : ℚ) ≤ w := by
  have hsc : sw * scale ≤ w := by
    have h1 : sw * scale ≤ sw * (w / sw) :=
      mul_le_mul_of_nonneg_left hle (le_of_lt hsw)
    have h2 : sw * (w / sw) = w := by field_simp
    linarith
  have hdw0 : 0 ≤ ⌊sw * scale⌋ := by
    have : (0 : ℚ) ≤ sw * scale := mul_nonneg (le_of_lt hsw) h0
    exact_mod_cast Int.le_floor.mpr (by exact_mod_cast this)
  have hdwle : ((⌊sw * scale⌋ : ℚ)) ≤ w := le_trans (Int.floor_le _) hsc
  have hdwq0 : (0 : ℚ) ≤ ((⌊sw * scale⌋ : ℤ) : ℚ) := by exact_mod_cast hdw0
  refine ⟨hdw0, hdwle, ?_, ?_⟩
  · exact Int.le_floor.mpr (by push_cast; linarith)
  · have hfl : ((⌊(w - ((⌊sw * scale⌋ : ℤ) : ℚ)) / 2⌋ : ℚ)) ≤
        (w - ((⌊sw * scale⌋ : ℤ) : ℚ)) / 2 := Int.floor_le _
    linarith

/-- C7: for positive surface dimensions `w × h` and positive source
dimensions `sw × sh`, `blitRect` uses the uniform scale
`min (w / sw) (h / sh)` exactly, centers the floored destination rectangle
(`dx = ⌊(w - dw) / 2⌋`, `dy = ⌊(h - dh) / 2⌋`), and the rectangle lies
entirely within surface bounds: `0 ≤ dx`, `0 ≤ dy`, `dx + dw ≤ w`,
`dy + dh ≤ h`. -/
theorem blitRect_scale_centered_inbounds (w h sw sh : ℚ)
    (hw : 0 < w) (hh : 0 < h) (hsw : 0 < sw) (hsh : 0 < sh) :
    (blitRect w h sw sh).dw = ⌊sw * min (w / sw) (h / sh)⌋ ∧
    (blitRect w h sw sh).dh = ⌊sh * min (w / sw) (h / sh)⌋ ∧
    (blitRect w h sw sh).dx = ⌊(w - (((blitRect w h sw sh).dw : ℤ) : ℚ)) / 2⌋ ∧
    (blitRect w h sw sh).dy = ⌊(h - (((blitRect w h sw sh).dh : ℤ) : ℚ)) / 2⌋ ∧
    0 ≤ (blitRect w h sw sh).dx ∧ 0 ≤ (blitRect w h sw sh).dy ∧
    (((blitRect w h sw sh).dx : ℤ) : ℚ) + (((blitRect w h sw sh).dw : ℤ) : ℚ) ≤ w ∧
    (((blitRect w h sw sh).dy : ℤ) : ℚ) + (((blitRect w h sw sh).dh : ℤ) : ℚ) ≤ h := by
  have hscale0 : 0 ≤ min (w / sw) (h / sh) :=
    le_min (le_of_lt (div_pos hw hsw)) (le_of_lt (div_pos hh hsh))
  have hx := floor_scale_dim_bounds w sw (min (w / sw) (h / sh)) hsw hscale0
    (min_le_left _ _)
  have hy := floor_scale_dim_bounds h sh (min (w / sw) (h / sh)) hsh hscale0
    (min_le_right _ _)
  refine ⟨rfl, rfl, rfl, rfl, ?_, ?_, ?_, ?_⟩
  · exact hx.2.2.1
  · exact hy.2.2.1
  · exact hx.2.2.2
  · exact hy.2.2.2

/-- Witness for C7 at the 512×512 surface and a 640×480 source. -/
theorem blitRect_scale_centered_inbounds_witness :
    0 ≤ (blitRect 512 512 640 480).dx ∧ 0 ≤ (blitRect 512 512 640 480).dy ∧
    (((blitRect 512 512 640 480).dx : ℤ) : ℚ) +
      (((blitRect 512 512 640 480).dw : ℤ) : ℚ) ≤ 512 ∧
    (((blitRect 512 512 640 480).dy : ℤ) : ℚ) +
      (((blitRect 512 512 640 480).dh : ℤ) : ℚ) ≤ 512 := by
  have h := blitRect_scale_centered_inbounds 512 512 640 480
    (by norm_num) (by norm_num) (by norm_num) (by norm_num)
  exact ⟨h.2.2.2.2.1, h.2.2.2.2.2.1, h.2.2.2.2.2.2.1, h.2.2.2.2.2.2.2⟩

/-- C10: `blitSource` restores the context's `globalAlpha` to its pre-call
value for every alpha argument, whether or not the underlying draw throws,
and any draw that does reach the surface is performed with the effective
alpha clamped to `[0, 1]`. -/
theorem blitSource_restores_globalAlpha (ctx : CtxState) (w h : ℚ)
    (s : StreamSource) (alpha : ℚ) (drawThrows : Bool) :
    ((blitSource ctx w h s alpha drawThrows).1).globalAlpha = ctx.globalAlpha ∧
    (∀ dc ∈ (blitSource ctx w h s alpha drawThrows).2,
      dc.alpha = max 0 (min 1 alpha) ∧ 0 ≤ dc.alpha ∧ dc.alpha ≤ 1) := by
  have hcl : (0 : ℚ) ≤ max 0 (min 1 alpha) ∧ max 0 (min 1 alpha) ≤ 1 :=
    ⟨le_max_left _ _, max_le (by norm_num) (min_le_left _ _)⟩
  by_cases hz : s.srcW = 0 ∨ s.srcH = 0
  · simp [blitSource, hz]
  · cases drawThrows
    · refine ⟨by simp [blitSource, hz], fun dc hdc => ?_⟩
      simp only [blitSource, hz, if_false, Bool.false_eq_true, ite_false,
        List.mem_singleton] at hdc
      subst hdc
      exact ⟨rfl, hcl.1, hcl.2⟩
    · refine ⟨by simp [blitSource, hz], fun dc hdc => ?_⟩
      simp [blitSource, hz] at hdc

/-- Witness for C10: a 1280×720 video source drawn with requested alpha 5/4
into a context whose `globalAlpha` is 3/4. -/
theorem blitSource_restores_globalAlpha_witness :
    ((blitSource ⟨3/4⟩ 512 512 ⟨SourceKind.video, 1, 4, 1280, 720⟩ (5/4)
        false).1).globalAlpha = 3/4 ∧
    (blitSource ⟨3/4⟩ 512 512 ⟨SourceKind.video, 1, 4, 1280, 720⟩ (5/4)
        false).2 = [⟨1, blitRect 512 512 1280 720, 1⟩] := by
  have h := blitSource_restores_globalAlpha ⟨3/4⟩ 512 512
    ⟨SourceKind.video, 1, 4, 1280, 720⟩ (5/4) false
  exact ⟨h.1, by norm_num [blitSource]⟩

/-- C1: on a tick while a crossfade is in progress (pending source ready,
current source active, default 200ms duration), with
`s = crossfadeStartMs` (set to `now` on this very tick when not yet
recorded) and `t = min 1 ((now - s) / 200)`: the tick blits the outgoing
source at `1 - t` and then the incoming one at `t`; when `t ≥ 1` it
promotes the incoming source to current and clears the pending source and
crossfade start; when `t < 1` it keeps the crossfade state; and when the
crossfade starts on this tick, `t = 0`. -/
theorem tick_crossfade (st : OrchestratorState) (now : ℚ) (p c : StreamSource)
    (hp : st.pendingSource = some p) (hr : isSourceReady p = true)
    (hc : st.currentSource = some c) (hd : st.crossfadeDurationMs = 200) :
    (tick st now).2 =
      [(c, 1 - min 1 ((now - st.crossfadeStartMs.getD now) / 200)),
       (p, min 1 ((now - st.crossfadeStartMs.getD now) / 200))] ∧
    (1 ≤ min 1 ((now - st.crossfadeStartMs.getD now) / 200) →
      (tick st now).1.currentSource = some p ∧
      (tick st now).1.pendingSource = none ∧
      (tick st now).1.crossfadeStartMs = none) ∧
    (min 1 ((now - st.crossfadeStartMs.getD now) / 200) < 1 →
      (tick st now).1.currentSource = some c ∧
      (tick st now).1.pendingSource = some p ∧
      (tick st now).1.crossfadeStartMs = some (st.crossfadeStartMs.getD now)) ∧
    (st.crossfadeStartMs = none →
      min 1 ((now - st.crossfadeStartMs.getD now) / 200) = 0) := by
  obtain ⟨cur, pend, startMs, dur⟩ := st
  simp only at hp hc hd
  subst hp hc hd
  cases startMs with
  | none =>
      have ht0 : min 1 ((now - (Option.getD none now : ℚ)) / 200) = (0 : ℚ) := by
        simp
      rw [ht0]
      have hstep : tick ⟨some c, some p, none, 200⟩ now =
          (⟨some c, some p, some now, 200⟩, [(c, 1 - 0), (p, 0)]) := by
        simp only [tick, startCrossfadeIfReady, hr, if_true]
        norm_num
      rw [hstep]
      refine ⟨by norm_num, fun habs => absurd habs (by norm_num), fun _ => ?_, fun _ => rfl⟩
      simp
  | some s =>
      have hstep1 : startCrossfadeIfReady ⟨some c, some p, some s, 200⟩ now =
          ⟨some c, some p, some s, 200⟩ := by
        simp [startCrossfadeIfReady, hr]
      by_cases ht : (1 : ℚ) ≤ min 1 ((now - s) / 200)
      · have hstep : tick ⟨some c, some p, some s, 200⟩ now =
            (⟨some p, none, none, 200⟩,
             [(c, 1 - min 1 ((now - s) / 200)), (p, min 1 ((now - s) / 200))]) := by
          simp only [tick, hstep1, ht, if_true]
        rw [hstep]
        exact ⟨rfl, fun _ => ⟨rfl, rfl, rfl⟩, fun hlt => absurd ht (not_le.mpr hlt),
          fun habs => by cases habs⟩
      · have hstep : tick ⟨some c, some p, some s, 200⟩ now =
            (⟨some c, some p, some s, 200⟩,
             [(c, 1 - min 1 ((now - s) / 200)), (p, min 1 ((now - s) / 200))]) := by
          simp only [tick, hstep1, ht, if_false]
        rw [hstep]
        exact ⟨rfl, fun hle => absurd hle ht, fun _ => ⟨rfl, rfl, rfl⟩,
          fun habs => by cases habs⟩

/-- Witness for C1: crossfading from source A (canvas 640×480) to ready
source B (video 1280×720) that started at time 0, observed at time 100 —
half the 200ms duration — draws A at alpha 1/2 and then B at alpha 1/2. -/
theorem tick_crossfade_witness :
    (tick ⟨some ⟨SourceKind.canvas, 0, 0, 640, 480⟩,
           some ⟨SourceKind.video, 1, 4, 1280, 720⟩, some 0, 200⟩ 100).2 =
      [(⟨SourceKind.canvas, 0, 0, 640, 480⟩, 1/2),
       (⟨SourceKind.video, 1, 4, 1280, 720⟩, 1/2)] := by
  have h := tick_crossfade
    ⟨some ⟨SourceKind.canvas, 0, 0, 640, 480⟩,
     some ⟨SourceKind.video, 1, 4, 1280, 720⟩, some 0, 200⟩ 100
    ⟨SourceKind.video, 1, 4, 1280, 720⟩ ⟨SourceKind.canvas, 0, 0, 640, 480⟩
    rfl (by decide) rfl rfl
  rw [h.1]
  norm_num

/-- Counterexample to C2: starting from the freshly initialized scheduler, a
`setSource` call starts the foreground pump, and the transition to hidden
then starts the background interval timer WITHOUT cancelling the animation
handle — both pumps are registered at the same time. -/
theorem pumps_both_registered_when_hidden :
    (schedulerStep (schedulerStep initSchedulerState SchedulerEvent.setSourceCall)
        (SchedulerEvent.visibilityChange true)).animationId = true ∧
    (schedulerStep (schedulerStep initSchedulerState SchedulerEvent.setSourceCall)
        (SchedulerEvent.visibilityChange true)).backgroundTimer = true := by
  decide

/-- C2 (amended): with background options configured, the transition to
visible stops the background timer and (given a canvas) restarts the
foreground pump; the transition to hidden starts the background timer
(given a canvas) but leaves the foreground animation handle exactly as it
was — it is not cancelled. -/
theorem visibility_transition_pumps (st : SchedulerState)
    (ho : st.hasBackgroundOptions = true) :
    (schedulerStep st (SchedulerEvent.visibilityChange false)).backgroundTimer = false ∧
    (st.canvasPresent = true →
      (schedulerStep st (SchedulerEvent.visibilityChange false)).animationId = true) ∧
    (schedulerStep st (SchedulerEvent.visibilityChange true)).animationId =
      st.animationId ∧
    (st.canvasPresent = true →
      (schedulerStep st (SchedulerEvent.visibilityChange true)).backgroundTimer = true) := by
  obtain ⟨a, b, c, d, e, m⟩ := st
  simp only at ho
  subst ho
  revert a b c e m
  decide

/-- Witness for C2 (amended) at the initialized scheduler state. -/
theorem visibility_transition_pumps_witness :
    (schedulerStep initSchedulerState (SchedulerEvent.visibilityChange false)).backgroundTimer
      = false ∧
    (schedulerStep initSchedulerState (SchedulerEvent.visibilityChange false)).animationId
      = true ∧
    (schedulerStep initSchedulerState (SchedulerEvent.visibilityChange true)).backgroundTimer
      = true := by
  have h := visibility_transition_pumps initSchedulerState rfl
  exact ⟨h.1, h.2.1 rfl, h.2.2.2 rfl⟩

/-- C9: `startMonitoring` twice equals `startMonitoring` once; from the idle
state a single start registers exactly one new analysis timer;
`stopMonitoring` in the idle state is a no-op that changes neither the
timer world nor the controller state; and `stopMonitoring` after
`startMonitoring` cancels the registered timer and returns the controller
to the idle state. -/
theorem monitoring_start_stop (w : TimerWorld) (st : ComplexityState) :
    startMonitoring (startMonitoring w st).1 (startMonitoring w st).2 =
      startMonitoring w st ∧
    (st.isAnalyzing = false →
      (startMonitoring w st).1.active = w.nextId :: w.active ∧
      (startMonitoring w st).2.analysisInterval = some w.nextId ∧
      (startMonitoring w st).2.isAnalyzing = true) ∧
    (st.isAnalyzing = false → st.analysisInterval = none →
      stopMonitoring w st = (w, st)) ∧
    (st.isAnalyzing = false → st.analysisInterval = none → w.nextId ∉ w.active →
      (stopMonitoring (startMonitoring w st).1 (startMonitoring w st).2).2 = st ∧
      (stopMonitoring (startMonitoring w st).1 (startMonitoring w st).2).1.active =
        w.active) := by
  obtain ⟨pf, hist, ia, ai⟩ := st
  cases ia with
  | true =>
      refine ⟨?_, fun habs => absurd habs (by simp), fun habs => absurd habs (by simp),
        fun habs => absurd habs (by simp)⟩
      simp [startMonitoring]
  | false =>
      refine ⟨?_, fun _ => ?_, fun _ hai => ?_, fun _ hai hfresh => ?_⟩
      · simp [startMonitoring, setIntervalTimer]
      · simp [startMonitoring, setIntervalTimer]
      · simp only at hai
        subst hai
        simp [stopMonitoring]
      · simp only at hai
        subst hai
        simp [startMonitoring, stopMonitoring, setIntervalTimer,
          clearIntervalTimer, List.erase_cons_head]

/-- Witness for C9: the idle manager against a fresh timer world (next id 1,
no active timers). -/
theorem monitoring_start_stop_witness :
    startMonitoring (startMonitoring ⟨1, []⟩ ⟨none, [], false, none⟩).1
        (startMonitoring ⟨1, []⟩ ⟨none, [], false, none⟩).2 =
      startMonitoring ⟨1, []⟩ ⟨none, [], false, none⟩ ∧
    stopMonitoring ⟨1, []⟩ ⟨none, [], false, none⟩ = (⟨1, []⟩, ⟨none, [], false, none⟩) ∧
    (stopMonitoring (startMonitoring ⟨1, []⟩ ⟨none, [], false, none⟩).1
        (startMonitoring ⟨1, []⟩ ⟨none, [], false, none⟩).2).2 =
      ⟨none, [], false, none⟩ := by
  have h := monitoring_start_stop ⟨1, []⟩ ⟨none, [], false, none⟩
  exact ⟨h.1, h.2.2.1 rfl rfl, (h.2.2.2 rfl rfl (by simp)).1⟩

/-- When the stream is active with a live first video track and the audio
requirement is met, the synchronous checks all pass. -/
theorem syncCheck_passes (stream : MediaStreamModel)
    (v : MediaStreamTrackModel) (vs : List MediaStreamTrackModel) (va : Bool)
    (hact : stream.active = true) (hv : stream.videoTracks = v :: vs)
    (haud : va = true → stream.audioTracks ≠ 0)
    (hlive : v.readyState = TrackReadyState.live) :
    syncCheck stream va = none := by
  obtain ⟨act, vts, auds⟩ := stream
  simp only at hact hv haud
  subst hact
  subst hv
  have haudb : (va && auds == 0) = false := by
    cases va with
    | false => rfl
    | true => simp [haud rfl]
  simp [syncCheck, haudb, hlive]

/-- C5: `performValidation` fails synchronously — ignoring the event
schedule entirely — in exactly the four source-ordered cases (inactive
stream; zero video tracks; audio required with zero audio tracks; first
video track not live), each with `isStable = false`, `frameCount = 0` and
its distinct error tag; in all other cases the synchronous prefix passes
and the event-driven phase runs. -/
theorem performValidation_sync_failures (stream : MediaStreamModel) (va : Bool) :
    (stream.active = false →
      syncCheck stream va = some ⟨false, 0, 0, some "Stream is not active"⟩) ∧
    (stream.active = true → stream.videoTracks = [] →
      syncCheck stream va = some ⟨false, 0, 0, some "No video tracks found"⟩) ∧
    (∀ v vs, stream.active = true → stream.videoTracks = v :: vs → va = true →
      stream.audioTracks = 0 →
      syncCheck stream va = some ⟨false, 0, 0, some "No audio tracks found"⟩) ∧
    (∀ v vs, stream.active = true → stream.videoTracks = v :: vs →
      (va = true → stream.audioTracks ≠ 0) →
      v.readyState ≠ TrackReadyState.live →
      syncCheck stream va = some ⟨false, 0, 0,
        some ("Video track not live: " ++ trackReadyStateText v.readyState)⟩) ∧
    (∀ v vs, stream.active = true → stream.videoTracks = v :: vs →
      (va = true → stream.audioTracks ≠ 0) →
      v.readyState = TrackReadyState.live →
      syncCheck stream va = none) ∧
    (∀ r, syncCheck stream va = some r → r.isStable = false ∧ r.frameCount = 0) ∧
    (∀ r m abortAt events, syncCheck stream va = some r →
      performValidation stream m va abortAt events = some r) := by
  obtain ⟨act, vts, auds⟩ := stream
  refine ⟨?_, ?_, ?_, ?_, ?_, ?_, ?_⟩
  · intro ha
    simp only at ha
    subst ha
    simp [syncCheck]
  · intro ha hv
    simp only at ha hv
    subst ha
    subst hv
    simp [syncCheck]
  · intro v vs ha hv hva h0
    simp only at ha hv h0
    subst ha
    subst hv
    subst hva
    subst h0
    simp [syncCheck]
  · intro v vs ha hv hna hnl
    simp only at ha hv
    subst ha
    subst hv
    have haud : (va && auds == 0) = false := by
      cases va with
      | false => rfl
      | true => simp [hna rfl]
    simp [syncCheck, haud, hnl]
  · intro v vs ha hv hna hl
    exact syncCheck_passes ⟨act, vts, auds⟩ v vs va ha hv hna hl
  · intro r h
    unfold syncCheck at h
    split at h
    · injection h with h2
      subst h2
      exact ⟨rfl, rfl⟩
    · split at h
      · injection h with h2
        subst h2
        exact ⟨rfl, rfl⟩
      · split at h
        · injection h with h2
          subst h2
          exact ⟨rfl, rfl⟩
        · split at h
          · injection h with h2
            subst h2
            exact ⟨rfl, rfl⟩
          · exact Option.noConfusion h
  · intro r m abortAt events h
    simp [performValidation, h]

/-- Witness for C5: an active stream whose single video track has ended,
with one audio track — the validation fails synchronously with the
"not live" tag and the event schedule is never consulted. -/
theorem performValidation_sync_failures_witness :
    syncCheck ⟨true, [⟨TrackReadyState.ended⟩], 1⟩ true =
      some ⟨false, 0, 0,
        some ("Video track not live: " ++ trackReadyStateText TrackReadyState.ended)⟩ ∧
    performValidation ⟨true, [⟨TrackReadyState.ended⟩], 1⟩ 5 true none
        [ValidationEvent.timeupdate (1/2) 50] =
      some ⟨false, 0, 0,
        some ("Video track not live: " ++ trackReadyStateText TrackReadyState.ended)⟩ := by
  have h := performValidation_sync_failures ⟨true, [⟨TrackReadyState.ended⟩], 1⟩ true
  have h4 := h.2.2.2.1 ⟨TrackReadyState.ended⟩ [] rfl rfl
    (fun _ => by norm_num) (by decide)
  exact ⟨h4, h.2.2.2.2.2.2 _ 5 none [ValidationEvent.timeupdate (1/2) 50] h4⟩

/-- Counterexample to C4: two `validate()` calls in quick succession on the
same inactive stream both resolve with the non-aborted "Stream is not
active" result — the pair yields two non-aborted results and no aborted
one, because the synchronous failure path never consults the abort
signal. -/
theorem validateTwice_two_nonaborted_results :
    (validateTwice ⟨false, [⟨TrackReadyState.live⟩], 1⟩ 5 true 0 [] []).1 =
      some ⟨false, 0, 0, some "Stream is not active"⟩ ∧
    (validateTwice ⟨false, [⟨TrackReadyState.live⟩], 1⟩ 5 true 0 [] []).2 =
      some ⟨false, 0, 0, some "Stream is not active"⟩ ∧
    (some "Stream is not active" : Option String) ≠ some "Validation aborted" := by
  refine ⟨rfl, rfl, by decide⟩

/-- C4 (amended): when the first validation has passed the synchronous
checks and is superseded by a second call for the same stream identity, the
first call's controller is aborted, and the first call resolves with the
"Validation aborted" result as soon as a `timeupdate` event fires at or
after the abort; the second call runs with a fresh, never-aborted
controller. -/
theorem validate_superseded_resolves_aborted (stream : MediaStreamModel)
    (v : MediaStreamTrackModel) (vs : List MediaStreamTrackModel)
    (m : Nat) (va : Bool) (a ct e : ℚ)
    (rest events2 : List ValidationEvent)
    (hact : stream.active = true) (hv : stream.videoTracks = v :: vs)
    (hlive : v.readyState = TrackReadyState.live)
    (haud : va = true → stream.audioTracks ≠ 0) (habort : a ≤ e) :
    (validateTwice stream m va a
        (ValidationEvent.timeupdate ct e :: rest) events2).1 =
      some ⟨false, 0, e, some "Validation aborted"⟩ ∧
    (validateTwice stream m va a
        (ValidationEvent.timeupdate ct e :: rest) events2).2 =
      performValidation stream m va none events2 := by
  have hsync : syncCheck stream va = none :=
    syncCheck_passes stream v vs va hact hv haud hlive
  refine ⟨?_, rfl⟩
  simp only [validateTwice, performValidation, hsync]
  simp [runEvents, abortedAt, habort]

/-- Witness for C4 (amended): a live, active stream superseded at elapsed
time 10 whose next `timeupdate` fires at elapsed time 20. -/
theorem validate_superseded_resolves_aborted_witness :
    (validateTwice ⟨true, [⟨TrackReadyState.live⟩], 1⟩ 5 true 10
        [ValidationEvent.timeupdate (1/2) 20] []).1 =
      some ⟨false, 0, 20, some "Validation aborted"⟩ := by
  have h := validate_superseded_resolves_aborted ⟨true, [⟨TrackReadyState.live⟩], 1⟩
    ⟨TrackReadyState.live⟩ [] 5 true 10 (1/2) 20 [] []
    rfl rfl rfl (fun _ => by norm_num) (by norm_num)
  exact h.1

/-- Counterexample to C8: a successful stream creation whose validation
failed and whose stream is no longer active when the 1000ms timer fires
never invokes the stream-ready callback — it does not fire "after exactly
one retry". -/
theorem createStream_callback_can_never_fire :
    createStream true false true false false = (true, CallbackTiming.never) ∧
    CallbackTiming.never ≠ CallbackTiming.delayed 1000 ∧
    CallbackTiming.never ≠ CallbackTiming.immediate := by
  decide

/-- C8 (amended): when creation proceeds (canvas present, not already
created, callback installed): a stable first validation fires the callback
immediately; an unstable one schedules a single 1000ms-delayed handover
that fires exactly when the stream is still present and active at that
moment, with no re-validation and no further retries; and a missing canvas
or an already-created stream produces no callback at all. -/
theorem createStream_callback_policy (stable act : Bool) :
    (createStream true false true stable act).1 = true ∧
    (stable = true →
      (createStream true false true stable act).2 = CallbackTiming.immediate) ∧
    (stable = false → act = true →
      (createStream true false true stable act).2 = CallbackTiming.delayed 1000) ∧
    (stable = false → act = false →
      (createStream true false true stable act).2 = CallbackTiming.never) ∧
    (∀ cp ac hc : Bool, cp = false ∨ ac = true →
      (createStream cp ac hc stable act).2 = CallbackTiming.never) := by
  cases stable <;> cases act <;> decide

/-- Witness for C8 (amended): failed validation with the stream still
active at the timer — the callback fires after the single 1000ms backoff. -/
theorem createStream_callback_policy_witness :
    (createStream true false true false true).2 = CallbackTiming.delayed 1000 ∧
    (createStream true false true true true).2 = CallbackTiming.immediate := by
  exact ⟨(createStream_callback_policy false true).2.2.1 rfl rfl,
    (createStream_callback_policy true true).2.1 rfl⟩

/-- The `isLowComplexity` field produced by `analyzeFrameComplexity` is
exactly `overallComplexity < 0.2`, by construction. -/
theorem analyzeFrameComplexity_isLow_iff (st : ComplexityState) (img : ImageData) :
    ((analyzeFrameComplexity st img).2).isLowComplexity ↔
    ((analyzeFrameComplexity st img).2).overallComplexity < 1/5 := Iff.rfl

/-- C6: for every analysis step on a well-formed sample
(`data.length = 4·width·height`): temporal complexity is 0 when there is
no previous sample or its dimensions differ, and otherwise equals the mean
absolute luminance delta against the previous sample divided by 255;
overall complexity is `(spatial + temporal) / 2`; and the low-complexity
flag holds exactly when overall complexity is below the fixed 0.2. -/
theorem analyzeFrameComplexity_metrics (st : ComplexityState) (img : ImageData)
    (hlen : img.data.length = 4 * (img.width * img.height)) :
    (st.previousFrameData = none →
      ((analyzeFrameComplexity st img).2).temporalComplexity = 0) ∧
    (∀ pd, st.previousFrameData = some pd →
      (pd.width ≠ img.width ∨ pd.height ≠ img.height) →
      ((analyzeFrameComplexity st img).2).temporalComplexity = 0) ∧
    (∀ pd, st.previousFrameData = some pd → pd.width = img.width →
      pd.height = img.height →
      ((analyzeFrameComplexity st img).2).temporalComplexity =
        (∑ k ∈ Finset.range (img.width * img.height),
          |pixelGray img.data (4 * k) - pixelGray pd.data (4 * k)|) /
          ((img.width * img.height : ℕ) : ℝ) / 255) ∧
    ((analyzeFrameComplexity st img).2).overallComplexity =
      (((analyzeFrameComplexity st img).2).spatialComplexity +
       ((analyzeFrameComplexity st img).2).temporalComplexity) / 2 ∧
    (((analyzeFrameComplexity st img).2).isLowComplexity ↔
      ((analyzeFrameComplexity st img).2).overallComplexity < 1/5) := by
  refine ⟨?_, ?_, ?_, rfl, Iff.rfl⟩
  · intro h
    simp [analyzeFrameComplexity, calculateTemporalComplexity, h]
  · intro pd hpd hne
    simp only [analyzeFrameComplexity, calculateTemporalComplexity, hpd]
    rw [if_neg]
    tauto
  · intro pd hpd hw hh
    simp only [analyzeFrameComplexity, calculateTemporalComplexity, hpd]
    rw [if_pos ⟨hw, hh⟩, hlen]
    have h1 : (4 * (img.width * img.height) + 3) / 4 = img.width * img.height := by
      omega
    rw [h1]
    have h2 : ((4 * (img.width * img.height) : ℕ) : ℝ) / 4 =
        ((img.width * img.height : ℕ) : ℝ) := by
      push_cast
      ring
    rw [h2]

/-- Witness for C6: a 1×1 sample with no previous frame. -/
theorem analyzeFrameComplexity_metrics_witness :
    ((analyzeFrameComplexity ⟨none, [], false, none⟩
        ⟨1, 1, [10, 20, 30, 255]⟩).2).temporalComplexity = 0 ∧
    ((analyzeFrameComplexity ⟨none, [], false, none⟩
        ⟨1, 1, [10, 20, 30, 255]⟩).2).overallComplexity =
      (((analyzeFrameComplexity ⟨none, [], false, none⟩
          ⟨1, 1, [10, 20, 30, 255]⟩).2).spatialComplexity +
       ((analyzeFrameComplexity ⟨none, [], false, none⟩
          ⟨1, 1, [10, 20, 30, 255]⟩).2).temporalComplexity) / 2 := by
  have h := analyzeFrameComplexity_metrics ⟨none, [], false, none⟩
    ⟨1, 1, [10, 20, 30, 255]⟩ rfl
  exact ⟨h.1 rfl, h.2.2.2.1⟩

/-! Concrete frames for the complexity-injection counterexample: 1×1
samples, the previous one black and the current one mid-gray (channel value
92), giving spatial complexity 0, temporal complexity 92/255, and overall
complexity 46/255 ≈ 0.18 — inside [0.15, 0.2). -/

/-- 1×1 all-black previous sample. -/
noncomputable def cexPrev : ImageData := ⟨1, 1, [0, 0, 0, 0]⟩

/-- 1×1 mid-gray current sample (RGB 92, alpha 255). -/
noncomputable def cexCur : ImageData := ⟨1, 1, [92, 92, 92, 255]⟩

/-- Manager state holding the black frame as the previous sample. -/
noncomputable def cexState : ComplexityState := ⟨some cexPrev, [], false, none⟩

/-- The orchestrator's complexity configuration: target 0.3, adaptive,
threshold 0.15, max intensity 0.2. -/
noncomputable def cexOpts : ComplexityInjectionOptions :=
  ⟨3/10, ComplexityType.adaptive, 3/20, 1/5⟩

/-- The 1×1 gray sample has spatial complexity 0 (no interior pixels). -/
theorem cexCur_spatial : calculateSpatialComplexity cexCur = 0 := by
  norm_num [calculateSpatialComplexity, cexCur]

/-- Temporal complexity of the gray sample against the black one: 92/255. -/
theorem cexCur_temporal :
    calculateTemporalComplexity (some cexPrev) cexCur = 92/255 := by
  have h0 : pixelGray cexCur.data 0 = (92 + 92 + 92) / 3 := rfl
  have h1 : pixelGray cexPrev.data 0 = (0 + 0 + 0) / 3 := rfl
  simp only [calculateTemporalComplexity]
  rw [if_pos ⟨rfl, rfl⟩]
  rw [show cexCur.data.length = 4 from rfl]
  rw [show (4 + 3) / 4 = 1 from rfl, Finset.sum_range_one]
  norm_num [h0, h1]

/-- Overall complexity of the counterexample analysis step: 46/255. -/
theorem cex_overall :
    ((analyzeFrameComplexity cexState cexCur).2).overallComplexity = 46/255 := by
  have ht : calculateTemporalComplexity cexState.previousFrameData cexCur = 92/255 := by
    rw [show cexState.previousFrameData = some cexPrev from rfl]
    exact cexCur_temporal
  simp only [analyzeFrameComplexity]
  rw [cexCur_spatial, ht]
  norm_num

/-- Counterexample to C3: with target 0.3, threshold 0.15 and max intensity
0.2, a frame of overall complexity 46/255 ≈ 0.18 is NOT below the
threshold, yet `injectComplexity` perturbs the surface (with the clamped
intensity 0.2) because the gate in source is the fixed `overall < 0.2`,
and `minComplexityThreshold` is never read. -/
theorem injectComplexity_ignores_threshold :
    (injectComplexity cexState cexCur cexOpts).2 = some (1/5) ∧
    cexOpts.minComplexityThreshold ≤
      ((analyzeFrameComplexity cexState cexCur).2).overallComplexity := by
  have hlow : ((analyzeFrameComplexity cexState cexCur).2).isLowComplexity :=
    (analyzeFrameComplexity_isLow_iff cexState cexCur).mpr
      (by rw [cex_overall]; norm_num)
  have hmin : min ((cexOpts.targetComplexity -
      ((analyzeFrameComplexity cexState cexCur).2).overallComplexity) * 2)
      cexOpts.maxIntensity = 1/5 := by
    rw [cex_overall]
    rw [show cexOpts.targetComplexity = 3/10 from rfl,
        show cexOpts.maxIntensity = 1/5 from rfl]
    rw [min_eq_right (by norm_num)]
  constructor
  · simp only [injectComplexity]
    rw [if_pos hlow, hmin]
    rw [if_pos (by norm_num)]
  · rw [cex_overall, show cexOpts.minComplexityThreshold = 3/20 from rfl]
    norm_num

/-- C3 (amended): `injectComplexity` perturbs the surface exactly when the
measured overall complexity is below the fixed 0.2 gate AND the intensity
`min((target − overall)·2, maxIntensity)` exceeds 0.01 — the configured
`minComplexityThreshold` plays no role — and any applied intensity equals
that minimum, hence never exceeds `maxIntensity`. -/
theorem injectComplexity_gating (st : ComplexityState) (img : ImageData)
    (opts : ComplexityInjectionOptions) :
    ((injectComplexity st img opts).2 ≠ none ↔
      (((analyzeFrameComplexity st img).2).overallComplexity < 1/5 ∧
       1/100 < min ((opts.targetComplexity -
         ((analyzeFrameComplexity st img).2).overallComplexity) * 2)
         opts.maxIntensity)) ∧
    (∀ i, (injectComplexity st img opts).2 = some i →
      i = min ((opts.targetComplexity -
        ((analyzeFrameComplexity st img).2).overallComplexity) * 2)
        opts.maxIntensity ∧
      i ≤ opts.maxIntensity) := by
  by_cases hlow : ((analyzeFrameComplexity st img).2).isLowComplexity
  · by_cases hin : 1/100 < min ((opts.targetComplexity -
        ((analyzeFrameComplexity st img).2).overallComplexity) * 2)
        opts.maxIntensity
    · constructor
      · simp only [injectComplexity, if_pos hlow, if_pos hin]
        exact ⟨fun _ => ⟨(analyzeFrameComplexity_isLow_iff st img).mp hlow, hin⟩,
          fun _ => by simp⟩
      · intro i hi
        simp only [injectComplexity, if_pos hlow, if_pos hin,
          Option.some.injEq] at hi
        subst hi
        exact ⟨rfl, min_le_right _ _⟩
    · constructor
      · simp only [injectComplexity, if_pos hlow, if_neg hin]
        exact ⟨fun habs => absurd rfl habs, fun hc => absurd hc.2 hin⟩
      · intro i hi
        simp only [injectComplexity, if_pos hlow, if_neg hin] at hi
        exact Option.noConfusion hi
  · constructor
    · simp only [injectComplexity, if_neg hlow]
      refine ⟨fun habs => absurd rfl habs, fun hc => absurd ?_ hlow⟩
      exact (analyzeFrameComplexity_isLow_iff st img).mpr hc.1
    · intro i hi
      simp only [injectComplexity, if_neg hlow] at hi
      exact Option.noConfusion hi

/-- Witness for C3 (amended): on the counterexample frame the gate
`overall < 0.2` holds and the clamped intensity exceeds 0.01, so the
injection fires. -/
theorem injectComplexity_gating_witness :
    (injectComplexity cexState cexCur cexOpts).2 ≠ none := by
  refine ((injectComplexity_gating cexState cexCur cexOpts).1).mpr ⟨?_, ?_⟩
  · rw [cex_overall]
    norm_num
  · rw [cex_overall, show cexOpts.targetComplexity = 3/10 from rfl,
      show cexOpts.maxIntensity = 1/5 from rfl]
    rw [min_eq_right (by norm_num)]
    norm_num
